import Mathlib

/-!
Verification of the `Core` state-switch shell of the ossu-game-project
repository (`src/engine/core.py`, `src/game/gui/start.py`).

The shell is embedded shallowly.  Heap-allocated objects (`World`,
`InGameState`) are represented by allocation identifiers drawn from a
fresh-id counter `nextId` carried in the state, so that statements about
"exactly one `World`" and about an `InGameState` being bound to a
particular `World` are expressible.  Methods that can raise
`GameNotInitializedError` return `Core × Except GameError _`: the first
component is the `Core` state after the call (Python raises before any
field assignment, so the error branch returns the state unchanged) and
the second is either the error or a description of the delegated call /
forwarded callback, carrying the arguments verbatim.

Code of the repository that is referenced but not under `src/`
(`GuiState`, `InGameState`, `World`, `GameSpec`) is modelled from the
spec where its behaviour matters; each such spot is marked in a comment.
-/

namespace OssuCore

/-- `SCREEN_WIDTH = 1000` (core.py line 22). -/
def SCREEN_WIDTH : Nat := 1000

/-- `SCREEN_HEIGHT = 650` (core.py line 23). -/
def SCREEN_HEIGHT : Nat := 650

/-- `SCREEN_TITLE = "OSSU Game Project"` (core.py line 24). -/
def SCREEN_TITLE : String := "OSSU Game Project"

/-- The single error kind of core.py: `GameNotInitializedError`
("Raised when functions are called before the game was properly
initialized").  Written `notInit` here. -/
inductive GameError
  | notInit
deriving DecidableEq, Repr

/-- An opaque 64-bit pattern standing for the Python `float` argument of
`on_update`.  core.py performs no arithmetic on it: `delta_time` is
forwarded verbatim, so any type with decidable equality represents it
faithfully. -/
structure FloatVal where
  bits : Nat
deriving DecidableEq, Repr

/-- The `InGameState` object as constructed in `Core.start_game`
(core.py lines 95-99): `InGameState(self.world, (self.width, self.height),
self.ingame_gui)`.  `id` is its allocation identifier; `boundWorld` the
identifier of the `World` passed to its constructor; GUIs are abstracted
to identifiers. -/
structure InGameStateObj where
  id : Nat
  boundWorld : Nat
  viewportSize : Nat × Nat
  gui : Option Nat
deriving DecidableEq, Repr

/-- A reference to one of the two `GameState` objects owned by `Core`:
the (unique, always-present) `gui_state`, or an `ingame_state` object.
`current_state` in Python is a reference of this shape. -/
inductive GameStateRef
  | guiState
  | inGameState (obj : InGameStateObj)
deriving DecidableEq, Repr

/-- The state of a `Core` object (core.py lines 48-83).  `gui_state` is
always present; what varies about it is which GUI it currently displays,
recorded in `guiGui`.  `world` and `ingameState` hold allocation
identifiers / objects once created.  `nextId` is the fresh-allocation
counter of the embedding. -/
structure Core where
  width : Nat
  height : Nat
  title : String
  world : Option Nat
  initialGui : Nat
  ingameGui : Option Nat
  initialPlayerState : Nat
  guiGui : Nat
  ingameState : Option InGameStateObj
  currentState : Option GameStateRef
  nextId : Nat
deriving DecidableEq, Repr

/-- `Core.__init__` (core.py lines 58-83).  The window is constructed
with the three fixed screen constants; `world`, `ingame_state` and
`current_state` start as `None`; `gui_state = GuiState(self,
self.initial_gui)` initially holds the initial GUI.  The `initial_gui`
and `ingame_gui` callables are abstracted to the identifiers of the GUI
objects they produce. -/
def Core.init (initialGui : Nat) (ingameGui : Option Nat)
    (initialPlayerState : Nat) : Core :=
  { width := SCREEN_WIDTH
    height := SCREEN_HEIGHT
    title := SCREEN_TITLE
    world := none
    initialGui := initialGui
    ingameGui := ingameGui
    initialPlayerState := initialPlayerState
    guiGui := initialGui
    ingameState := none
    currentState := none
    nextId := 0 }

/-- `Core.setup` (core.py lines 85-87): calls `self.gui_state.setup()`.
Modelled from the spec: `GuiState.setup` is not under src/; per the spec
it "resets GUI state to initial configuration", touching only the GUI
state's internal widgets — it changes no field of `Core` and not which
GUI is displayed. -/
def Core.setup (s : Core) : Core := s

/-- `Core.start_game` (core.py lines 89-102): constructs a `World` if
`self.world is None`, constructs an `InGameState` bound to `self.world`
if `self.ingame_state is None` (and calls its `setup`, which is internal
to that object), then sets `current_state = ingame_state`.  Fresh
allocations take the next identifiers. -/
def Core.start_game (s : Core) : Core :=
  let wn : Nat × Nat :=
    match s.world with
    | some w => (w, s.nextId)
    | none => (s.nextId, s.nextId + 1)
  let ign : InGameStateObj × Nat :=
    match s.ingameState with
    | some ig => (ig, wn.2)
    | none =>
      ({ id := wn.2, boundWorld := wn.1,
         viewportSize := (s.width, s.height), gui := s.ingameGui },
       wn.2 + 1)
  { s with
    world := some wn.1
    ingameState := some ign.1
    currentState := some (.inGameState ign.1)
    nextId := ign.2 }

/-- `Core.show_gui` (core.py lines 111-114): `self.gui_state.set_gui(gui)`
then `self.current_state = self.gui_state`.  Modelled from the spec:
`GuiState.set_gui` is not under src/; per the spec it makes the GUI state
"display `gui`", i.e. it replaces the GUI held by `gui_state`. -/
def Core.show_gui (s : Core) (gui : Nat) : Core :=
  { s with guiGui := gui, currentState := some .guiState }

/-- `Core.run` (core.py lines 153-157): `self.setup()`, then
`self.show_gui(self.initial_gui)`, then hands control to `arcade.run()`
whose event loop issues the callback operations (covered by subsequent
`Op`s). -/
def Core.run (s : Core) : Core :=
  (s.setup).show_gui s.initialGui

/-- The operations core.py delegates to the `World` model, with their
arguments. `World` itself is not under src/; only the delegation is
modelled, which is all the claims speak about.  Sprite specs, scripts
and player-state dictionaries are abstracted to identifiers. -/
inductive WorldOp
  | loadRegion (name startLocation : String)
  | createSprite (spriteSpec : Nat) (name : String)
      (startLocation : Int × Int) (script : Option Nat)
  | getKeyPoints (name : Option String)
  | getPlayerState
  | setPlayerState (value : Nat)
deriving DecidableEq, Repr

/-- A delegated call: which `World` object receives which operation. -/
inductive Delegated
  | toWorld (worldId : Nat) (op : WorldOp)
deriving DecidableEq, Repr

/-- `Core.change_region` (core.py lines 104-109): raises if
`self.world is None`, else delegates `load_region(name, start_location)`
to the world. -/
def Core.change_region (s : Core) (name startLocation : String) :
    Core × Except GameError Delegated :=
  match s.world with
  | none => (s, .error .notInit)
  | some w => (s, .ok (.toWorld w (.loadRegion name startLocation)))

/-- `Core.create_sprite` (core.py lines 116-128): raises if
`self.world is None`, else looks up `self._spec.sprites[spec_name]` and
delegates `create_sprite` to the world.  `GameSpec` is not under src/;
modelled from the spec, which describes sprite-spec lookup only as
surrounding glue, the `sprites` mapping is abstracted to a total map
`spr` from names to sprite-spec identifiers. -/
def Core.create_sprite (spr : String → Nat) (s : Core)
    (spec_name name : String) (start_location : Int × Int)
    (script : Option Nat) : Core × Except GameError Delegated :=
  match s.world with
  | none => (s, .error .notInit)
  | some w =>
    (s, .ok (.toWorld w
      (.createSprite (spr spec_name) name start_location script)))

/-- `Core.get_key_points` (core.py lines 130-135): raises if
`self.world is None`, else delegates `get_key_points(name)`. -/
def Core.get_key_points (s : Core) (name : Option String) :
    Core × Except GameError Delegated :=
  match s.world with
  | none => (s, .error .notInit)
  | some w => (s, .ok (.toWorld w (.getKeyPoints name)))

/-- The `player_state` property getter (core.py lines 137-143): raises if
`self.world is None`, else reads `self.world.player_state`. -/
def Core.get_player_state (s : Core) : Core × Except GameError Delegated :=
  match s.world with
  | none => (s, .error .notInit)
  | some w => (s, .ok (.toWorld w .getPlayerState))

/-- The `player_state` property setter (core.py lines 145-151): raises if
`self.world is None`, else writes `self.world.player_state = value`. -/
def Core.set_player_state (s : Core) (value : Nat) :
    Core × Except GameError Delegated :=
  match s.world with
  | none => (s, .error .notInit)
  | some w => (s, .ok (.toWorld w (.setPlayerState value)))

/-- The view of a `GameState`: the GUI state's view renders the GUI it
currently holds; the in-game state's view is bound to its world. -/
inductive ViewRef
  | guiView (gui : Nat)
  | ingameView (ingameId worldId : Nat)
deriving DecidableEq, Repr

/-- The controller of a `GameState`, mirroring `ViewRef`. -/
inductive ControllerRef
  | guiController (gui : Nat)
  | ingameController (ingameId worldId : Nat)
deriving DecidableEq, Repr

/-- The view of a given state reference, read at dispatch time (the GUI
state's view depends on which GUI it currently displays). -/
def Core.viewOf (s : Core) : GameStateRef → ViewRef
  | .guiState => .guiView s.guiGui
  | .inGameState o => .ingameView o.id o.boundWorld

/-- The controller of a given state reference, read at dispatch time. -/
def Core.controllerOf (s : Core) : GameStateRef → ControllerRef
  | .guiState => .guiController s.guiGui
  | .inGameState o => .ingameController o.id o.boundWorld

/-- The view of the active state (`self.current_state.view`), if any
state is active. -/
def Core.activeView (s : Core) : Option ViewRef :=
  s.currentState.map s.viewOf

/-- The controller of the active state (`self.current_state.controller`),
if any state is active. -/
def Core.activeController (s : Core) : Option ControllerRef :=
  s.currentState.map s.controllerOf

/-- What a forwarded engine callback does: which view / controller /
state receives it, with the arguments passed through verbatim.
`draw` records that `self.clear()` ran first. -/
inductive CallbackEffect
  | draw (clearedFirst : Bool) (view : ViewRef)
  | keyPress (target : ControllerRef) (symbol modifiers : Int)
  | keyRelease (target : ControllerRef) (symbol modifiers : Int)
  | mouseMotion (target : ControllerRef) (x y dx dy : Int)
  | mouseRelease (target : ControllerRef) (x y button modifiers : Int)
  | update (target : GameStateRef) (deltaTime : FloatVal)
deriving DecidableEq, Repr

/-- `Core.on_draw` (core.py lines 165-171): raises if
`self.current_state is None`, else clears the screen and calls
`self.current_state.view.on_draw()`. -/
def Core.on_draw (s : Core) : Core × Except GameError CallbackEffect :=
  match s.currentState with
  | none => (s, .error .notInit)
  | some st => (s, .ok (.draw true (s.viewOf st)))

/-- `Core.on_key_press` (core.py lines 173-178): raises if
`self.current_state is None`, else forwards to the active controller. -/
def Core.on_key_press (s : Core) (symbol modifiers : Int) :
    Core × Except GameError CallbackEffect :=
  match s.currentState with
  | none => (s, .error .notInit)
  | some st => (s, .ok (.keyPress (s.controllerOf st) symbol modifiers))

/-- `Core.on_key_release` (core.py lines 180-185): raises if
`self.current_state is None`, else forwards to the active controller. -/
def Core.on_key_release (s : Core) (symbol modifiers : Int) :
    Core × Except GameError CallbackEffect :=
  match s.currentState with
  | none => (s, .error .notInit)
  | some st => (s, .ok (.keyRelease (s.controllerOf st) symbol modifiers))

/-- `Core.on_mouse_motion` (core.py lines 187-192): raises if
`self.current_state is None`, else forwards to the active controller. -/
def Core.on_mouse_motion (s : Core) (x y dx dy : Int) :
    Core × Except GameError CallbackEffect :=
  match s.currentState with
  | none => (s, .error .notInit)
  | some st => (s, .ok (.mouseMotion (s.controllerOf st) x y dx dy))

/-- `Core.on_mouse_release` (core.py lines 194-210): raises if
`self.current_state is None`, else forwards to the active controller. -/
def Core.on_mouse_release (s : Core) (x y button modifiers : Int) :
    Core × Except GameError CallbackEffect :=
  match s.currentState with
  | none => (s, .error .notInit)
  | some st => (s, .ok (.mouseRelease (s.controllerOf st) x y button modifiers))

/-- `Core.on_update` (core.py lines 212-217): raises if
`self.current_state is None`, else forwards `delta_time` to the active
state itself (`self.current_state.on_update(delta_time)`). -/
def Core.on_update (s : Core) (dt : FloatVal) :
    Core × Except GameError CallbackEffect :=
  match s.currentState with
  | none => (s, .error .notInit)
  | some st => (s, .ok (.update st dt))

/-- One operation of the public surface of `Core`, with its arguments:
the lifecycle methods, the world-dependent methods, and the six engine
callbacks. -/
inductive Op
  | setup
  | start_game
  | show_gui (gui : Nat)
  | change_region (name startLocation : String)
  | create_sprite (spec_name name : String)
      (start_location : Int × Int) (script : Option Nat)
  | get_key_points (name : Option String)
  | get_player_state
  | set_player_state (value : Nat)
  | run
  | on_draw
  | on_key_press (symbol modifiers : Int)
  | on_key_release (symbol modifiers : Int)
  | on_mouse_motion (x y dx dy : Int)
  | on_mouse_release (x y button modifiers : Int)
  | on_update (dt : FloatVal)
deriving DecidableEq, Repr

/-- The `Core` state after one operation.  For fallible operations a
raise leaves the state as it was (the first component of the result);
`spr` is the sprite-spec mapping of the game spec held by this `Core`. -/
def Core.step (spr : String → Nat) (s : Core) : Op → Core
  | .setup => s.setup
  | .start_game => s.start_game
  | .show_gui g => s.show_gui g
  | .change_region n l => (s.change_region n l).1
  | .create_sprite sn n loc sc => (Core.create_sprite spr s sn n loc sc).1
  | .get_key_points n => (s.get_key_points n).1
  | .get_player_state => (s.get_player_state).1
  | .set_player_state v => (s.set_player_state v).1
  | .run => s.run
  | .on_draw => (s.on_draw).1
  | .on_key_press a b => (s.on_key_press a b).1
  | .on_key_release a b => (s.on_key_release a b).1
  | .on_mouse_motion a b c d => (s.on_mouse_motion a b c d).1
  | .on_mouse_release a b c d => (s.on_mouse_release a b c d).1
  | .on_update dt => (s.on_update dt).1

/-- The `Core` state after a sequence of operations. -/
def Core.runOps (spr : String → Nat) (s : Core) : List Op → Core
  | [] => s
  | op :: ops => Core.runOps spr (Core.step spr s op) ops

/-- A `Core` state is reachable if some constructor arguments and some
sequence of operations produce it. -/
def Reachable (s : Core) : Prop :=
  ∃ (g : Nat) (ig : Option Nat) (ps : Nat) (spr : String → Nat)
    (ops : List Op), s = Core.runOps spr (Core.init g ig ps) ops

/-- The inductive invariant of the shell: the in-game state, if built, is
bound to the world currently held, and the current state, if in-game, is
the in-game state that was built. -/
def Inv (s : Core) : Prop :=
  (∀ o : InGameStateObj, s.ingameState = some o → s.world = some o.boundWorld) ∧
  (∀ o : InGameStateObj, s.currentState = some (.inGameState o) →
    s.ingameState = some o)

theorem change_region_fst (s : Core) (n l : String) :
    (s.change_region n l).1 = s := by
  cases h : s.world <;> simp [Core.change_region, h]

theorem create_sprite_fst (spr : String → Nat) (s : Core)
    (sn n : String) (loc : Int × Int) (sc : Option Nat) :
    (Core.create_sprite spr s sn n loc sc).1 = s := by
  cases h : s.world <;> simp [Core.create_sprite, h]

theorem get_key_points_fst (s : Core) (n : Option String) :
    (s.get_key_points n).1 = s := by
  cases h : s.world <;> simp [Core.get_key_points, h]

theorem get_player_state_fst (s : Core) :
    (s.get_player_state).1 = s := by
  cases h : s.world <;> simp [Core.get_player_state, h]

theorem set_player_state_fst (s : Core) (v : Nat) :
    (s.set_player_state v).1 = s := by
  cases h : s.world <;> simp [Core.set_player_state, h]

theorem on_draw_fst (s : Core) : (s.on_draw).1 = s := by
  cases h : s.currentState <;> simp [Core.on_draw, h]

theorem on_key_press_fst (s : Core) (a b : Int) :
    (s.on_key_press a b).1 = s := by
  cases h : s.currentState <;> simp [Core.on_key_press, h]

theorem on_key_release_fst (s : Core) (a b : Int) :
    (s.on_key_release a b).1 = s := by
  cases h : s.currentState <;> simp [Core.on_key_release, h]

theorem on_mouse_motion_fst (s : Core) (a b c d : Int) :
    (s.on_mouse_motion a b c d).1 = s := by
  cases h : s.currentState <;> simp [Core.on_mouse_motion, h]

theorem on_mouse_release_fst (s : Core) (a b c d : Int) :
    (s.on_mouse_release a b c d).1 = s := by
  cases h : s.currentState <;> simp [Core.on_mouse_release, h]

theorem on_update_fst (s : Core) (dt : FloatVal) :
    (s.on_update dt).1 = s := by
  cases h : s.currentState <;> simp [Core.on_update, h]

theorem inv_init (g : Nat) (ig : Option Nat) (ps : Nat) :
    Inv (Core.init g ig ps) := by
  constructor <;> intro o h <;> simp [Core.init] at h

theorem inv_start_game (s : Core) (h : Inv s) : Inv s.start_game := by
  obtain ⟨h1, h2⟩ := h
  cases hw : s.world <;> cases hig : s.ingameState <;>
    simp only [Core.start_game, hw, hig]
  case none.none =>
    refine ⟨fun o ho => ?_, fun o ho => ?_⟩ <;> simp at ho <;> subst ho <;> rfl
  case none.some o0 =>
    have hb := h1 o0 hig
    rw [hw] at hb
    exact Option.noConfusion hb
  case some.none w =>
    refine ⟨fun o ho => ?_, fun o ho => ?_⟩ <;> simp at ho <;> subst ho <;> rfl
  case some.some w o0 =>
    have hb := h1 o0 hig
    rw [hw] at hb
    refine ⟨fun o ho => ?_, fun o ho => ?_⟩ <;> simp_all

theorem inv_show_gui (s : Core) (g : Nat) (h : Inv s) :
    Inv (s.show_gui g) := by
  obtain ⟨h1, h2⟩ := h
  exact ⟨fun o ho => h1 o ho, fun o ho => by simp [Core.show_gui] at ho⟩

theorem inv_step (spr : String → Nat) (s : Core) (op : Op) (h : Inv s) :
    Inv (Core.step spr s op) := by
  cases op <;>
    simp only [Core.step, Core.setup, Core.run, change_region_fst,
      create_sprite_fst, get_key_points_fst, get_player_state_fst,
      set_player_state_fst, on_draw_fst, on_key_press_fst,
      on_key_release_fst, on_mouse_motion_fst, on_mouse_release_fst,
      on_update_fst]
  case start_game => exact inv_start_game s h
  case show_gui g => exact inv_show_gui s g h
  case run => exact inv_show_gui s s.initialGui h
  all_goals exact h

theorem inv_runOps (spr : String → Nat) (s : Core) (ops : List Op)
    (h : Inv s) : Inv (Core.runOps spr s ops) := by
  induction ops generalizing s with
  | nil => exact h
  | cons op ops ih => exact ih _ (inv_step spr s op h)

theorem reachable_inv (s : Core) (h : Reachable s) : Inv s := by
  obtain ⟨g, ig, ps, spr, ops, rfl⟩ := h
  exact inv_runOps spr _ ops (inv_init g ig ps)

/-- Shared helper: `start_game` always leaves `current_state` pointing at
the object stored in `ingame_state`. -/
theorem start_game_current (s : Core) :
    ∃ o : InGameStateObj,
      s.start_game.currentState = some (.inGameState o) ∧
      s.start_game.ingameState = some o := by
  cases hw : s.world <;> cases hig : s.ingameState <;>
    simp [Core.start_game, hw, hig]

/-- C1: `start_game` constructs a new `World` only when the `world` field
is `None` and a new `InGameState` only when `ingame_state` is `None`
(bound to the world it holds at that point), then sets `current_state` to
the in-game state.  Calling it twice in succession from any state
allocates exactly one `World` and one `InGameState` (a fresh start
advances the allocation counter by exactly two), and the second call
changes nothing beyond re-performing the state switch: it is the
identity on the state reached by the first call. -/
theorem start_game_idempotent_lazy (s : Core) :
    (∀ w, s.world = some w → s.start_game.world = some w) ∧
    (∀ o, s.ingameState = some o → s.start_game.ingameState = some o) ∧
    (s.world = none → s.start_game.world = some s.nextId) ∧
    (s.ingameState = none →
      ∃ o : InGameStateObj, s.start_game.ingameState = some o ∧
        s.start_game.world = some o.boundWorld) ∧
    s.start_game.currentState =
      (s.start_game.ingameState).map GameStateRef.inGameState ∧
    (s.world = none → s.ingameState = none →
      s.start_game.nextId = s.nextId + 2) ∧
    s.start_game.start_game = s.start_game := by
  refine ⟨?_, ?_, ?_, ?_, ?_, ?_, ?_⟩ <;>
    cases hw : s.world <;> cases hig : s.ingameState <;>
      simp [Core.start_game, hw, hig]

/-- Witness for C1 at a freshly constructed `Core` after one
`start_game`: the second call preserves the world identifier `0` and the
in-game object, and a fresh double allocation advances the counter by
two. -/
theorem start_game_idempotent_lazy_witness :
    ((Core.init 0 none 0).start_game.world = some 0 →
      (Core.init 0 none 0).start_game.start_game.world = some 0) ∧
    ((Core.init 0 none 0).world = none →
      (Core.init 0 none 0).ingameState = none →
      (Core.init 0 none 0).start_game.nextId = (Core.init 0 none 0).nextId + 2) ∧
    (Core.init 0 none 0).start_game.world = some 0 ∧
    (Core.init 0 none 0).world = none ∧
    (Core.init 0 none 0).ingameState = none :=
  ⟨(start_game_idempotent_lazy ((Core.init 0 none 0).start_game)).1 0,
   (start_game_idempotent_lazy (Core.init 0 none 0)).2.2.2.2.2.1,
   rfl, rfl, rfl⟩

/-- C2: in every reachable `Core` state, whenever `current_state` is the
in-game state, the `world` field is non-`None`: `current_state` is never
a state whose required backing model is absent. -/
theorem current_ingame_world_present (s : Core) (h : Reachable s)
    (o : InGameStateObj) (hc : s.currentState = some (.inGameState o)) :
    s.world ≠ none := by
  obtain ⟨h1, h2⟩ := reachable_inv s h
  rw [h1 o (h2 o hc)]
  simp

/-- Witness for C2: the state reached by `start_game` from a fresh
`Core` has the in-game state current, and indeed a non-`None` world. -/
theorem current_ingame_world_present_witness :
    (Core.runOps (fun _ => 0) (Core.init 0 none 0) [.start_game]).world ≠ none :=
  current_ingame_world_present _
    ⟨0, none, 0, fun _ => 0, [.start_game], rfl⟩
    ⟨1, 0, (1000, 650), none⟩ rfl
/-- C3: each world-dependent operation — `change_region`,
`create_sprite`, `get_key_points`, and the `player_state` getter and
setter — raises the not-initialized error exactly when the `world` field
is `None` (in particular before the first `start_game`, where it is
`None`), and otherwise delegates to the corresponding `World`
operation on the world object held. -/
theorem world_ops_raise_iff (spr : String → Nat) (s : Core) :
    (∀ n l, (s.change_region n l).2 = .error .notInit ↔ s.world = none) ∧
    (∀ n l w, s.world = some w →
      s.change_region n l = (s, .ok (.toWorld w (.loadRegion n l)))) ∧
    (∀ sn n loc sc, (Core.create_sprite spr s sn n loc sc).2 =
        .error .notInit ↔ s.world = none) ∧
    (∀ sn n loc sc w, s.world = some w →
      Core.create_sprite spr s sn n loc sc =
        (s, .ok (.toWorld w (.createSprite (spr sn) n loc sc)))) ∧
    (∀ n, (s.get_key_points n).2 = .error .notInit ↔ s.world = none) ∧
    (∀ n w, s.world = some w →
      s.get_key_points n = (s, .ok (.toWorld w (.getKeyPoints n)))) ∧
    ((s.get_player_state).2 = .error .notInit ↔ s.world = none) ∧
    (∀ w, s.world = some w →
      s.get_player_state = (s, .ok (.toWorld w .getPlayerState))) ∧
    (∀ v, (s.set_player_state v).2 = .error .notInit ↔ s.world = none) ∧
    (∀ v w, s.world = some w →
      s.set_player_state v = (s, .ok (.toWorld w (.setPlayerState v)))) := by
  refine ⟨?_, ?_, ?_, ?_, ?_, ?_, ?_, ?_, ?_, ?_⟩ <;>
    cases hw : s.world <;>
      simp [Core.change_region, Core.create_sprite, Core.get_key_points,
        Core.get_player_state, Core.set_player_state, hw]

/-- Witness for C3: at a fresh `Core`, `change_region` raises the
not-initialized error; after `start_game`, it delegates `load_region` to
the world with identifier 0. -/
theorem world_ops_raise_iff_witness :
    ((Core.init 0 none 0).change_region "r" "p").2 = .error .notInit ∧
    (Core.init 0 none 0).start_game.change_region "r" "p" =
      ((Core.init 0 none 0).start_game,
        .ok (.toWorld 0 (.loadRegion "r" "p"))) :=
  ⟨((world_ops_raise_iff (fun _ => 0) (Core.init 0 none 0)).1 "r" "p").mpr rfl,
   (world_ops_raise_iff (fun _ => 0)
      (Core.init 0 none 0).start_game).2.1 "r" "p" 0 rfl⟩

/-- C4: each of the six callback delegates raises the not-initialized
error exactly when `current_state` is `None` (as it is before the first
`show_gui` or `start_game`), and otherwise forwards its arguments
verbatim: `on_draw` to the active state's view (after clearing the
screen), the four input callbacks to the active state's controller, and
`on_update` to the active state itself. -/
theorem callbacks_raise_iff (s : Core) :
    ((s.on_draw).2 = .error .notInit ↔ s.currentState = none) ∧
    (∀ st, s.currentState = some st →
      s.on_draw = (s, .ok (.draw true (s.viewOf st)))) ∧
    (∀ a b, (s.on_key_press a b).2 = .error .notInit ↔
      s.currentState = none) ∧
    (∀ a b st, s.currentState = some st →
      s.on_key_press a b = (s, .ok (.keyPress (s.controllerOf st) a b))) ∧
    (∀ a b, (s.on_key_release a b).2 = .error .notInit ↔
      s.currentState = none) ∧
    (∀ a b st, s.currentState = some st →
      s.on_key_release a b = (s, .ok (.keyRelease (s.controllerOf st) a b))) ∧
    (∀ a b c d, (s.on_mouse_motion a b c d).2 = .error .notInit ↔
      s.currentState = none) ∧
    (∀ a b c d st, s.currentState = some st →
      s.on_mouse_motion a b c d =
        (s, .ok (.mouseMotion (s.controllerOf st) a b c d))) ∧
    (∀ a b c d, (s.on_mouse_release a b c d).2 = .error .notInit ↔
      s.currentState = none) ∧
    (∀ a b c d st, s.currentState = some st →
      s.on_mouse_release a b c d =
        (s, .ok (.mouseRelease (s.controllerOf st) a b c d))) ∧
    (∀ dt, (s.on_update dt).2 = .error .notInit ↔ s.currentState = none) ∧
    (∀ dt st, s.currentState = some st →
      s.on_update dt = (s, .ok (.update st dt))) := by
  refine ⟨?_, ?_, ?_, ?_, ?_, ?_, ?_, ?_, ?_, ?_, ?_, ?_⟩ <;>
    cases hc : s.currentState <;>
      simp [Core.on_draw, Core.on_key_press, Core.on_key_release,
        Core.on_mouse_motion, Core.on_mouse_release, Core.on_update, hc]

/-- Witness for C4: at a fresh `Core`, `on_draw` raises the
not-initialized error; after `show_gui 7`, `on_key_press 1 2` is
forwarded verbatim to the GUI state's controller displaying GUI 7. -/
theorem callbacks_raise_iff_witness :
    ((Core.init 0 none 0).on_draw).2 = .error .notInit ∧
    ((Core.init 0 none 0).show_gui 7).on_key_press 1 2 =
      ((Core.init 0 none 0).show_gui 7,
        .ok (.keyPress (.guiController 7) 1 2)) :=
  ⟨((callbacks_raise_iff (Core.init 0 none 0)).1).mpr rfl,
   (callbacks_raise_iff ((Core.init 0 none 0).show_gui 7)).2.2.2.1 1 2
     .guiState rfl⟩
/-- C5: `show_gui g` sets `current_state` to the GUI state and has it
display `g`, so the active state's view and controller are those of `g`;
after `start_game`, the active state's view and controller are the
in-game ones, bound to the single world held by `Core`. -/
theorem active_state_after_switch (s : Core) (h : Reachable s) (g : Nat) :
    (s.show_gui g).currentState = some .guiState ∧
    (s.show_gui g).guiGui = g ∧
    (s.show_gui g).activeView = some (.guiView g) ∧
    (s.show_gui g).activeController = some (.guiController g) ∧
    ∃ i w, s.start_game.world = some w ∧
      s.start_game.activeView = some (.ingameView i w) ∧
      s.start_game.activeController = some (.ingameController i w) := by
  obtain ⟨o, hc, hi⟩ := start_game_current s
  have hinv := inv_start_game s (reachable_inv s h)
  refine ⟨rfl, rfl, ?_, ?_, o.id, o.boundWorld, hinv.1 o hi, ?_, ?_⟩ <;>
    simp [Core.activeView, Core.activeController, Core.show_gui,
      Core.viewOf, Core.controllerOf, hc]

/-- Witness for C5 at a fresh `Core`: after `show_gui 3` the active view
is GUI 3's, and after `start_game` the active view and controller are
the in-game ones bound to the world with identifier 0. -/
theorem active_state_after_switch_witness :
    ((Core.init 0 none 0).show_gui 3).activeView = some (.guiView 3) ∧
    ∃ i w, (Core.init 0 none 0).start_game.world = some w ∧
      (Core.init 0 none 0).start_game.activeView =
        some (.ingameView i w) ∧
      (Core.init 0 none 0).start_game.activeController =
        some (.ingameController i w) :=
  ⟨(active_state_after_switch (Core.init 0 none 0)
      ⟨0, none, 0, fun _ => 0, [], rfl⟩ 3).2.2.1,
   (active_state_after_switch (Core.init 0 none 0)
      ⟨0, none, 0, fun _ => 0, [], rfl⟩ 3).2.2.2.2⟩

/-- Shared helper: every operation preserves an already-created world,
identifier included. -/
theorem world_step_some (spr : String → Nat) (s : Core) (op : Op) (w : Nat)
    (hw : s.world = some w) : (Core.step spr s op).world = some w := by
  cases op <;>
    simp only [Core.step, Core.setup, Core.run, Core.show_gui,
      change_region_fst, create_sprite_fst, get_key_points_fst,
      get_player_state_fst, set_player_state_fst, on_draw_fst,
      on_key_press_fst, on_key_release_fst, on_mouse_motion_fst,
      on_mouse_release_fst, on_update_fst] <;>
    first
      | exact hw
      | simp [Core.start_game, hw]

/-- Shared helper: no operation other than `start_game` creates a
world. -/
theorem world_step_none (spr : String → Nat) (s : Core) (op : Op)
    (hop : op ≠ .start_game) (hw : s.world = none) :
    (Core.step spr s op).world = none := by
  cases op <;>
    simp only [Core.step, Core.setup, Core.run, Core.show_gui,
      change_region_fst, create_sprite_fst, get_key_points_fst,
      get_player_state_fst, set_player_state_fst, on_draw_fst,
      on_key_press_fst, on_key_release_fst, on_mouse_motion_fst,
      on_mouse_release_fst, on_update_fst] <;>
    first
      | exact absurd rfl hop
      | exact hw

/-- Shared helper: `world_step_some` lifted to operation sequences. -/
theorem world_runOps_some (spr : String → Nat) (s : Core) (ops : List Op)
    (w : Nat) (hw : s.world = some w) :
    (Core.runOps spr s ops).world = some w := by
  induction ops generalizing s with
  | nil => exact hw
  | cons op ops ih => exact ih _ (world_step_some spr s op w hw)

/-- Shared helper: `world_step_none` lifted to operation sequences. -/
theorem world_runOps_none (spr : String → Nat) (s : Core) (ops : List Op)
    (hops : ∀ op ∈ ops, op ≠ .start_game) (hw : s.world = none) :
    (Core.runOps spr s ops).world = none := by
  induction ops generalizing s with
  | nil => exact hw
  | cons op ops ih =>
    exact ih _ (fun o ho => hops o (List.mem_cons_of_mem op ho))
      (world_step_none spr s op (hops op (List.mem_cons_self op ops)) hw)

/-- C6: the world starts out absent, stays absent under any sequence of
operations containing no `start_game`, is created by the first
`start_game` (taking the next fresh identifier), and once present is
never replaced or cleared: every subsequent operation sequence leaves
the same world identifier in place. -/
theorem world_created_once (spr : String → Nat) (g1 : Nat)
    (ig1 : Option Nat) (ps : Nat) (s : Core) (ops : List Op) :
    (Core.init g1 ig1 ps).world = none ∧
    (s.world = none → (∀ op ∈ ops, op ≠ .start_game) →
      (Core.runOps spr s ops).world = none) ∧
    (s.world = none → s.start_game.world = some s.nextId) ∧
    (∀ w, s.world = some w → (Core.runOps spr s ops).world = some w) := by
  refine ⟨rfl, ?_, ?_, ?_⟩
  · exact fun hw hops => world_runOps_none spr s ops hops hw
  · intro hw
    simp [Core.start_game, hw]
  · exact fun w hw => world_runOps_some spr s ops w hw

/-- Witness for C6: from a fresh `Core`, `show_gui` and a callback leave
the world absent; the first `start_game` creates world 0; and world 0
survives a further `show_gui`, a second `start_game`, and an update. -/
theorem world_created_once_witness :
    (Core.runOps (fun _ => 0) (Core.init 0 none 0)
      [.show_gui 1, .on_draw]).world = none ∧
    (Core.init 0 none 0).start_game.world = some 0 ∧
    (Core.runOps (fun _ => 0) (Core.init 0 none 0).start_game
      [.show_gui 1, .start_game, .on_update ⟨5⟩]).world = some 0 :=
  ⟨(world_created_once (fun _ => 0) 0 none 0 (Core.init 0 none 0)
      [.show_gui 1, .on_draw]).2.1 rfl (by decide),
   (world_created_once (fun _ => 0) 0 none 0 (Core.init 0 none 0) []).2.2.1
      rfl,
   (world_created_once (fun _ => 0) 0 none 0 (Core.init 0 none 0).start_game
      [.show_gui 1, .start_game, .on_update ⟨5⟩]).2.2.2 0 rfl⟩

/-- C7: every `Core` window is constructed with fixed width 1000, height
650 and title "OSSU Game Project", whatever the constructor
arguments. -/
theorem window_params_fixed (g : Nat) (ig : Option Nat) (ps : Nat) :
    (Core.init g ig ps).width = 1000 ∧
    (Core.init g ig ps).height = 650 ∧
    (Core.init g ig ps).title = "OSSU Game Project" :=
  ⟨rfl, rfl, rfl⟩
/-- C8: every operation that raises the not-initialized error is atomic:
whenever any of the five world-dependent operations or the six callback
delegates reports the error, the `Core` state is exactly as it was
before the call. -/
theorem error_atomicity (spr : String → Nat) (s : Core) :
    (∀ n l, (s.change_region n l).2 = .error .notInit →
      (s.change_region n l).1 = s) ∧
    (∀ sn n loc sc, (Core.create_sprite spr s sn n loc sc).2 =
        .error .notInit → (Core.create_sprite spr s sn n loc sc).1 = s) ∧
    (∀ n, (s.get_key_points n).2 = .error .notInit →
      (s.get_key_points n).1 = s) ∧
    ((s.get_player_state).2 = .error .notInit →
      (s.get_player_state).1 = s) ∧
    (∀ v, (s.set_player_state v).2 = .error .notInit →
      (s.set_player_state v).1 = s) ∧
    ((s.on_draw).2 = .error .notInit → (s.on_draw).1 = s) ∧
    (∀ a b, (s.on_key_press a b).2 = .error .notInit →
      (s.on_key_press a b).1 = s) ∧
    (∀ a b, (s.on_key_release a b).2 = .error .notInit →
      (s.on_key_release a b).1 = s) ∧
    (∀ a b c d, (s.on_mouse_motion a b c d).2 = .error .notInit →
      (s.on_mouse_motion a b c d).1 = s) ∧
    (∀ a b c d, (s.on_mouse_release a b c d).2 = .error .notInit →
      (s.on_mouse_release a b c d).1 = s) ∧
    (∀ dt, (s.on_update dt).2 = .error .notInit →
      (s.on_update dt).1 = s) :=
  ⟨fun n l _ => change_region_fst s n l,
   fun sn n loc sc _ => create_sprite_fst spr s sn n loc sc,
   fun n _ => get_key_points_fst s n,
   fun _ => get_player_state_fst s,
   fun v _ => set_player_state_fst s v,
   fun _ => on_draw_fst s,
   fun a b _ => on_key_press_fst s a b,
   fun a b _ => on_key_release_fst s a b,
   fun a b c d _ => on_mouse_motion_fst s a b c d,
   fun a b c d _ => on_mouse_release_fst s a b c d,
   fun dt _ => on_update_fst s dt⟩

/-- Witness for C8: at a fresh `Core`, `change_region` raises and leaves
the state unchanged, and so does `on_draw`. -/
theorem error_atomicity_witness :
    ((Core.init 0 none 0).change_region "r" "p").1 = Core.init 0 none 0 ∧
    ((Core.init 0 none 0).on_draw).1 = Core.init 0 none 0 :=
  ⟨(error_atomicity (fun _ => 0) (Core.init 0 none 0)).1 "r" "p" rfl,
   (error_atomicity (fun _ => 0) (Core.init 0 none 0)).2.2.2.2.2.1 rfl⟩

/-- Shared helper: every operation leaves `current_state` non-`None`
once it is non-`None`. -/
theorem current_step_some (spr : String → Nat) (s : Core) (op : Op)
    (h : s.currentState ≠ none) :
    (Core.step spr s op).currentState ≠ none := by
  obtain ⟨o, hc, -⟩ := start_game_current s
  cases op <;>
    simp only [Core.step, Core.setup, Core.run, Core.show_gui,
      change_region_fst, create_sprite_fst, get_key_points_fst,
      get_player_state_fst, set_player_state_fst, on_draw_fst,
      on_key_press_fst, on_key_release_fst, on_mouse_motion_fst,
      on_mouse_release_fst, on_update_fst] <;>
    first
      | exact h
      | (rw [hc]; simp)
      | simp

/-- Shared helper: `current_step_some` lifted to operation sequences. -/
theorem current_runOps_some (spr : String → Nat) (s : Core)
    (ops : List Op) (h : s.currentState ≠ none) :
    (Core.runOps spr s ops).currentState ≠ none := by
  induction ops generalizing s with
  | nil => exact h
  | cons op ops ih => exact ih _ (current_step_some spr s op h)

/-- C9: once `current_state` has been set (it is non-`None` exactly
after a `show_gui` or `start_game` has run), every subsequent sequence
of operations leaves it non-`None`, so none of the six callback
delegates can report the not-initialized error any more. -/
theorem current_state_persists (spr : String → Nat) (s : Core)
    (h : s.currentState ≠ none) (ops : List Op) :
    (Core.runOps spr s ops).currentState ≠ none ∧
    ((Core.runOps spr s ops).on_draw).2 ≠ .error .notInit ∧
    (∀ a b, ((Core.runOps spr s ops).on_key_press a b).2 ≠
      .error .notInit) ∧
    (∀ a b, ((Core.runOps spr s ops).on_key_release a b).2 ≠
      .error .notInit) ∧
    (∀ a b c d, ((Core.runOps spr s ops).on_mouse_motion a b c d).2 ≠
      .error .notInit) ∧
    (∀ a b c d, ((Core.runOps spr s ops).on_mouse_release a b c d).2 ≠
      .error .notInit) ∧
    (∀ dt, ((Core.runOps spr s ops).on_update dt).2 ≠
      .error .notInit) := by
  have hrun := current_runOps_some spr s ops h
  cases hcur : (Core.runOps spr s ops).currentState with
  | none => exact absurd hcur hrun
  | some st =>
    refine ⟨?_, ?_, ?_, ?_, ?_, ?_, ?_⟩ <;>
      simp [Core.on_draw, Core.on_key_press, Core.on_key_release,
        Core.on_mouse_motion, Core.on_mouse_release, Core.on_update, hcur]

/-- Witness for C9: after `show_gui 1` on a fresh `Core`, running an
update and a `setup` leaves `current_state` set, and `on_draw` does not
report the error. -/
theorem current_state_persists_witness :
    (Core.runOps (fun _ => 0) ((Core.init 0 none 0).show_gui 1)
      [.on_update ⟨0⟩, .setup]).currentState ≠ none ∧
    ((Core.runOps (fun _ => 0) ((Core.init 0 none 0).show_gui 1)
      [.on_update ⟨0⟩, .setup]).on_draw).2 ≠ .error .notInit :=
  ⟨(current_state_persists (fun _ => 0) ((Core.init 0 none 0).show_gui 1)
      (by decide) [.on_update ⟨0⟩, .setup]).1,
   (current_state_persists (fun _ => 0) ((Core.init 0 none 0).show_gui 1)
      (by decide) [.on_update ⟨0⟩, .setup]).2.1⟩

/-- C10: `show_gui` has no lifecycle precondition: its embedding is a
total function that never produces `GameNotInitializedError`.  From any
state — including the freshly constructed one, where `world`,
`ingame_state` and `current_state` are all `None` and `setup` has not
run — it sets the displayed GUI to `g`, switches the current state to
the GUI state, and leaves every other field unchanged. -/
theorem show_gui_no_precondition (s : Core) (g : Nat) :
    (s.show_gui g).guiGui = g ∧
    (s.show_gui g).currentState = some .guiState ∧
    (s.show_gui g).world = s.world ∧
    (s.show_gui g).ingameState = s.ingameState ∧
    (s.show_gui g).nextId = s.nextId ∧
    ((Core.init g none 0).show_gui g).currentState = some .guiState :=
  ⟨rfl, rfl, rfl, rfl, rfl, rfl⟩

end OssuCore
